import Mathlib

/-
Verification of the eSIM activation diagnosis service (rule engine + LLM
fallback orchestrator).

Shallow-embedding conventions:
- JS strings carrying user text are modelled as `List Char`; `toLowerCase`
  is `List.map Char.toLower` (the keyword sets are ASCII) and
  `String.prototype.includes` is the substring test `containsSub`.
- Timestamps are `Int` milliseconds since the epoch; `new Date(x)` followed
  by subtraction of dates is integer subtraction, and `Math.floor` of the
  millisecond quotient is `Int.fdiv` (floor division, rounding toward
  negative infinity, as JS `Math.floor` does on negative quotients).
- Optional/possibly-undefined JS fields are `Option`s; the `data.sim || {}`
  idiom is `Option.getD` with an all-`none` record, and optional chaining
  `data.sim?.createdAt` is `Option.bind`.
- Network calls made by the orchestrator (subscription fetch, LLM call,
  provider reprovision call) are passed in as explicit oracle values, so the
  handler becomes a pure function of its inputs and those oracles.
-/

/-- A JS string value (user issue text, keywords). -/
abbrev JsStr := List Char

/-- JS `String.prototype.startsWith` on char lists (anchored prefix test). -/
def startsWith : JsStr → JsStr → Bool
  | _, [] => true
  | [], _ :: _ => false
  | c :: cs, p :: ps => c == p && startsWith cs ps

/-- JS `String.prototype.includes`: `containsSub s pat` tests whether `pat`
occurs as a contiguous substring of `s`. -/
def containsSub : JsStr → JsStr → Bool
  | [], pat => pat.isEmpty
  | c :: cs, pat => startsWith (c :: cs) pat || containsSub cs pat

/-- JS `String.prototype.toLowerCase`, restricted to the basic-latin folding
that the ASCII keyword sets exercise. -/
def jsToLower (s : JsStr) : JsStr := s.map Char.toLower

/-- The nested `sim` object of a subscription record; every field may be
absent (`undefined`). -/
structure Sim where
  id : Option String
  status : Option String
  createdAt : Option Int
deriving Repr, DecidableEq

/-- The `{}` object substituted by the rules via `data.sim || {}`. -/
def emptySim : Sim := { id := none, status := none, createdAt := none }

/-- A subscription record as returned by the Gigs API: lifecycle `status`,
optional `createdAt` timestamp, optional nested `sim` object. -/
structure SubscriptionData where
  status : Option String
  createdAt : Option Int
  sim : Option Sim
deriving Repr, DecidableEq

/-- The activation-start timestamp picked by `_minutesSinceActivation`:
`data.createdAt || data.sim?.createdAt`. -/
def activationStart (data : SubscriptionData) : Option Int :=
  data.createdAt.orElse fun _ => data.sim.bind fun s => s.createdAt

/-- `RuleEngine._minutesSinceActivation`: whole minutes between `now` and the
activation start, `0` when no timestamp is present.  `Math.floor` of the
millisecond quotient is floor division. -/
def minutesSinceActivation (now : Int) (data : SubscriptionData) : Int :=
  match activationStart data with
  | none => 0
  | some createdAt => Int.fdiv (now - createdAt) (1000 * 60)

/-- The object a rule returns on a match (`ruleName`, `confidence`, `action`,
optional `simId`, user-facing `message`, internal `reasoning`). -/
structure Diagnosis where
  ruleName : String
  confidence : Int
  action : String
  simId : Option String
  message : String
  reasoning : String
deriving Repr, DecidableEq

/-- The object returned by rule 1 (`m` is the elapsed-minutes value that the
source recomputes for the reasoning string). -/
def provisioningStuckDiag (simId : Option String) (m : Int) : Diagnosis :=
  { ruleName := "provisioning_stuck"
    confidence := 95
    action := "reprovision"
    simId := simId
    message := "We detected your activation was stuck. We\x27ve reset it — please restart your phone in 2 minutes and check again."
    reasoning := s!"Provisioning has been pending for {m} minutes (>15 min threshold)" }

/-- RULE 1 `ruleProvisioningStuck`: SIM inactive, subscription pending, and
more than 15 elapsed minutes. -/
def ruleProvisioningStuck (now : Int) (data : SubscriptionData)
    (_userIssue : JsStr) : Option Diagnosis :=
  let sim := data.sim.getD emptySim
  if sim.status = some ("inactive") ∧ data.status = some ("pending") ∧
      minutesSinceActivation now data > 15 then
    some (provisioningStuckDiag sim.id (minutesSinceActivation now data))
  else none

/-- The object returned by rule 2. -/
def billingHoldDiag : Diagnosis :=
  { ruleName := "billing_hold"
    confidence := 98
    action := "route_to_payment"
    simId := none
    message := "Your activation is on hold due to a payment issue. Please update your payment method to continue."
    reasoning := "Subscription is in \x27initiated\x27 status, indicating unpaid first invoice" }

/-- RULE 2 `ruleBillingHold`: SIM inactive and subscription initiated. -/
def ruleBillingHold (_now : Int) (data : SubscriptionData)
    (_userIssue : JsStr) : Option Diagnosis :=
  let sim := data.sim.getD emptySim
  if sim.status = some ("inactive") ∧ data.status = some ("initiated") then
    some billingHoldDiag
  else none

/-- The object returned by rule 3; `minutesRemaining` is
`Math.ceil(15 - minutesElapsed)`, and `Math.ceil` applied to this integer
value is the identity. -/
def normalDelayDiag (minutesElapsed : Int) : Diagnosis :=
  let minutesRemaining := 15 - minutesElapsed
  { ruleName := "normal_delay"
    confidence := 90
    action := "wait"
    simId := none
    message := s!"Your activation is in progress. This usually takes 10-15 minutes. Please wait {minutesRemaining} more minute(s) and restart your phone."
    reasoning := s!"Only {minutesElapsed} minutes have elapsed - still within normal activation window" }

/-- RULE 3 `ruleNormalDelay`: SIM inactive, subscription pending, and fewer
than 15 elapsed minutes (the source condition is strict `< 15`). -/
def ruleNormalDelay (now : Int) (data : SubscriptionData)
    (_userIssue : JsStr) : Option Diagnosis :=
  let sim := data.sim.getD emptySim
  let minutesElapsed := minutesSinceActivation now data
  if sim.status = some ("inactive") ∧ data.status = some ("pending") ∧
      minutesElapsed < 15 then
    some (normalDelayDiag minutesElapsed)
  else none

/-- The fixed keyword set of `ruleDeviceConfig`. -/
def noServiceKeywords : List JsStr :=
  ["no service".toList, "no data".toList, "not working".toList, "no signal".toList]

/-- The object returned by rule 4. -/
def deviceConfigDiag : Diagnosis :=
  { ruleName := "device_config"
    confidence := 85
    action := "route_to_settings_guide"
    simId := none
    message := "Your line is active on our end. Let\x27s check your device settings:\n1. Is your eSIM selected as the default for calls/data?\n2. Is Airplane Mode off?\n3. Have you restarted your phone?\n[Link to detailed settings guide would go here]"
    reasoning := "Backend shows active status but user reports no service - likely device configuration issue" }

/-- RULE 4 `ruleDeviceConfig`: SIM active, subscription active, and the user
text mentions one of the no-service keywords (case-insensitive substring). -/
def ruleDeviceConfig (_now : Int) (data : SubscriptionData)
    (userIssue : JsStr) : Option Diagnosis :=
  let sim := data.sim.getD emptySim
  let mentionsNoService :=
    noServiceKeywords.any fun kw => containsSub (jsToLower userIssue) kw
  if sim.status = some ("active") ∧ data.status = some ("active") ∧
      mentionsNoService = true then
    some deviceConfigDiag
  else none

/-- The object returned by rule 5. -/
def paymentOverdueDiag : Diagnosis :=
  { ruleName := "payment_overdue"
    confidence := 98
    action := "route_to_payment_restoration"
    simId := none
    message := "Your service is restricted due to an overdue payment. Update your payment method to restore service immediately."
    reasoning := "Subscription status is \x27restricted\x27 indicating service suspension" }

/-- RULE 5 `rulePaymentOverdue`: subscription restricted (SIM status is not
consulted). -/
def rulePaymentOverdue (_now : Int) (data : SubscriptionData)
    (_userIssue : JsStr) : Option Diagnosis :=
  if data.status = some ("restricted") then
    some paymentOverdueDiag
  else none

/-- The object returned by rule 6. -/
def subscriptionEndedDiag : Diagnosis :=
  { ruleName := "subscription_ended"
    confidence := 100
    action := "inform_only"
    simId := none
    message := "This subscription has been canceled. If you\x27d like to reactivate service, please contact support or purchase a new plan."
    reasoning := "Subscription is in terminal \x27ended\x27 state" }

/-- RULE 6 `ruleSubscriptionEnded`: subscription ended. -/
def ruleSubscriptionEnded (_now : Int) (data : SubscriptionData)
    (_userIssue : JsStr) : Option Diagnosis :=
  if data.status = some ("ended") then
    some subscriptionEndedDiag
  else none

/-- The object returned by rule 7; note it carries no `simId` (the source
object has no `simId` key), unlike the rule 1 object. -/
def activationFailedDiag : Diagnosis :=
  { ruleName := "activation_failed"
    confidence := 85
    action := "reprovision"
    simId := none
    message := "We detected your activation was stuck. We\x27ve reset it — please restart your phone in 2 minutes and check again."
    reasoning := "Provisioning has been pending for 20 minutes" }

/-- RULE 7 `ruleActivationFailed`: the user text mentions "activation failed"
(case-insensitive substring), independent of subscription state. -/
def ruleActivationFailed (_now : Int) (_data : SubscriptionData)
    (userIssue : JsStr) : Option Diagnosis :=
  let mentionsActivationFailed :=
    containsSub (jsToLower userIssue) ("activation failed".toList)
  if mentionsActivationFailed = true then
    some activationFailedDiag
  else none

/-- The type of one rule, as stored in the `rules` array of `evaluate`
(`now` stands for the ambient `Date.now()` read by `_minutesSinceActivation`). -/
abbrev Rule := Int → SubscriptionData → JsStr → Option Diagnosis

/-- The ordered `rules` array of `RuleEngine.evaluate`. -/
def rules : List Rule :=
  [ruleProvisioningStuck, ruleBillingHold, ruleNormalDelay, ruleDeviceConfig,
   rulePaymentOverdue, ruleSubscriptionEnded, ruleActivationFailed]

/-- `RuleEngine.evaluate`: run the rules in order, return the first match,
`none` when no rule matched (the caller then falls back to the LLM). -/
def evaluate (now : Int) (data : SubscriptionData) (userIssue : JsStr) :
    Option Diagnosis :=
  rules.findSome? fun rule => rule now data userIssue

/-- The rule at position `i` of the `rules` array (out-of-range positions
give the always-abstaining rule). -/
def ruleAt (i : Nat) : Rule :=
  rules.getD i fun _ _ _ => none

/-- The structured diagnosis parsed out of the LLM reply (`diagnosis`,
`recommendedAction`, `confidence`, `reasoning`, optional `userMessage`). -/
structure LlmDiagnosis where
  diagnosisText : String
  recommendedAction : String
  confidence : Int
  reasoning : String
  userMessage : Option String
deriving Repr, DecidableEq

/-- The value returned by `llmHandler.diagnose` at its boundary: a success
flag, an error message when it failed, and the diagnosis. -/
structure LlmResult where
  success : Bool
  error : Option String
  diagnosis : LlmDiagnosis
deriving Repr, DecidableEq

/-- Payload of an action outcome: either the provider response body or the
synthesized mock object built by `reprovisionSIM` on failure. -/
inductive ReprovisionData where
  | provider (payload : String)
  | mock (simId : String) (action : String) (message : String) (timestamp : String)
deriving Repr, DecidableEq

/-- The object `gigsClient.reprovisionSIM` resolves with: `success` flag,
`data` payload, and the `mocked` marker (absent, i.e. `false`, on a genuine
provider response). -/
structure ReprovisionOutcome where
  success : Bool
  data : ReprovisionData
  mocked : Bool
deriving Repr, DecidableEq

/-- `gigsClient.reprovisionSIM`: POST the reprovision request; on any error
return a synthesized success outcome marked `mocked`.  `nowISO` stands for
`new Date().toISOString()`; the outbound call is the `providerCall` oracle. -/
def reprovisionSIM (simId : String) (nowISO : String)
    (providerCall : Except String String) : ReprovisionOutcome :=
  match providerCall with
  | .ok payload => { success := true, data := .provider payload, mocked := false }
  | .error _ =>
    { success := true
      data := .mock simId ("reprovision_triggered")
        ("SIM reprovisioning initiated (mocked for prototype)") nowISO
      mocked := true }

/-- Outcome of the subscription fetch oracle (`gigsClient.getSubscription`). -/
inductive FetchResult where
  | ok (data : SubscriptionData)
  | err (error : String)
deriving Repr, DecidableEq

/-- The response the `POST /diagnose` handler sends, per branch of the code
(400 validation error, 500 fetch error, rule-engine response, llm-failed
response, llm response). -/
inductive HandlerResponse where
  | badRequest
  | fetchError (details : String)
  | ruleEngine (rule : String) (confidence : Int) (action : String)
      (message : String) (reasoning : String)
      (actionResult : Option ReprovisionOutcome)
  | llmFailed (reasoning : Option String)
  | llm (confidence : Int) (action : String) (message : String)
      (reasoning : String) (actionResult : Option ReprovisionOutcome)
deriving Repr, DecidableEq

/-- JS truthiness of a possibly-absent string (`undefined`/`null`/`""` are
falsy). -/
def jsTruthyStr : Option String → Bool
  | none => false
  | some s => !(s == "")

/-- JS truthiness of a possibly-absent user-text string. -/
def jsTruthyJsStr : Option JsStr → Bool
  | none => false
  | some s => !s.isEmpty

/-- JS `a || b` on a possibly-absent string with a string fallback. -/
def jsOrStr (a : Option String) (b : String) : String :=
  match a with
  | none => b
  | some s => if s == "" then b else s

/-- The rule-match branch of the handler: execute the action when the rule
asked for `reprovision` and carried a (truthy) `simId`, then build the
rule-engine response. -/
def ruleBranch (ruleResult : Diagnosis) (nowISO : String)
    (providerCall : Except String String) : HandlerResponse :=
  let actionResult :=
    if ruleResult.action == "reprovision" && jsTruthyStr ruleResult.simId then
      some (reprovisionSIM (ruleResult.simId.getD ("")) nowISO providerCall)
    else none
  .ruleEngine ruleResult.ruleName ruleResult.confidence ruleResult.action
    ruleResult.message ruleResult.reasoning actionResult

/-- The LLM-fallback branch of the handler: surface an escalation response on
LLM failure; otherwise execute `reprovision` when recommended with confidence
at least 80 and a SIM id present, and coerce the action to `escalate` when
confidence is below 80. -/
def llmBranch (data : SubscriptionData) (llmResult : LlmResult)
    (nowISO : String) (providerCall : Except String String) : HandlerResponse :=
  if llmResult.success = false then
    .llmFailed llmResult.error
  else
    let diagnosis := llmResult.diagnosis
    let simId := data.sim.bind fun s => s.id
    let actionResult :=
      if 80 ≤ diagnosis.confidence then
        if diagnosis.recommendedAction == "reprovision" && jsTruthyStr simId then
          some (reprovisionSIM (simId.getD ("")) nowISO providerCall)
        else none
      else none
    let action :=
      if 80 ≤ diagnosis.confidence then diagnosis.recommendedAction
      else "escalate"
    .llm diagnosis.confidence action
      (jsOrStr diagnosis.userMessage diagnosis.diagnosisText)
      diagnosis.reasoning actionResult

/-- The `POST /diagnose` handler: validate, fetch, try the rule engine, fall
back to the LLM.  `now` is `Date.now()` as read by the rule engine and
`nowISO` is the ISO rendering used in mock payloads. -/
def diagnoseHandler (now : Int) (nowISO : String)
    (subscriptionId : Option String) (userIssue : Option JsStr)
    (fetch : FetchResult) (llmResult : LlmResult)
    (providerCall : Except String String) : HandlerResponse :=
  if !(jsTruthyStr subscriptionId) || !(jsTruthyJsStr userIssue) then
    .badRequest
  else
    match fetch with
    | .err e => .fetchError e
    | .ok data =>
      match evaluate now data (userIssue.getD []) with
      | some ruleResult => ruleBranch ruleResult nowISO providerCall
      | none => llmBranch data llmResult nowISO providerCall

/-- The `action` field of the serialized response (`escalate` hard-coded in
the llm-failed branch; absent on error responses). -/
def HandlerResponse.actionField : HandlerResponse → Option String
  | .badRequest => none
  | .fetchError _ => none
  | .ruleEngine _ _ a _ _ _ => some a
  | .llmFailed _ => some ("escalate")
  | .llm _ a _ _ _ => some a

/-- The `method` tag of the serialized response. -/
def HandlerResponse.methodField : HandlerResponse → Option String
  | .badRequest => none
  | .fetchError _ => none
  | .ruleEngine _ _ _ _ _ _ => some ("rule_engine")
  | .llmFailed _ => some ("llm_failed")
  | .llm _ _ _ _ _ => some ("llm")

/-- The `actionResult` field of the serialized response. -/
def HandlerResponse.actionResultField : HandlerResponse → Option ReprovisionOutcome
  | .ruleEngine _ _ _ _ _ ar => ar
  | .llm _ _ _ _ ar => ar
  | _ => none

/-- Sample record: pending subscription with an inactive SIM, created at the
epoch. -/
def sampleStuck : SubscriptionData :=
  { status := some ("pending"), createdAt := some 0,
    sim := some { id := some ("sim_1"), status := some ("inactive"), createdAt := none } }

/-- Sample record: active subscription and active SIM. -/
def sampleActiveActive : SubscriptionData :=
  { status := some ("active"), createdAt := none,
    sim := some { id := some ("sim_2"), status := some ("active"), createdAt := none } }

/-- Sample record: restricted subscription carrying no sim object. -/
def sampleRestricted : SubscriptionData :=
  { status := some ("restricted"), createdAt := none, sim := none }

/-- Sample record with every field absent. -/
def sampleEmpty : SubscriptionData :=
  { status := none, createdAt := none, sim := none }

/-- A concrete LLM oracle value, for handler branches that never consult it. -/
def llmUnused : LlmResult :=
  { success := false, error := some ("unused"),
    diagnosis := { diagnosisText := "", recommendedAction := "", confidence := 0,
                   reasoning := "", userMessage := none } }

/-- ASCII lower-casing is idempotent on characters: `Char.toLower` maps the
range 65-90 into 97-122, which the guard then leaves unchanged. -/
theorem charToLowerIdem (c : Char) : c.toLower.toLower = c.toLower := by
  have key : ∀ n : Nat, 65 ≤ n → n ≤ 90 →
      (Char.ofNat (n + 32)).toLower = Char.ofNat (n + 32) := by
    intro n h1 h2
    interval_cases n <;> decide
  by_cases h : 65 ≤ c.toNat ∧ c.toNat ≤ 90
  · have h1 : c.toLower = Char.ofNat (c.toNat + 32) := by
      simp [Char.toLower, h.1, h.2]
    rw [h1]
    exact key c.toNat h.1 h.2
  · have h1 : c.toLower = c := by
      simp [Char.toLower]
      intro hc1 hc2
      exact absurd ⟨hc1, hc2⟩ h
    rw [h1, h1]

/-- Lower-casing a JS string twice is the same as doing it once. -/
theorem jsToLowerIdem (s : JsStr) : jsToLower (jsToLower s) = jsToLower s := by
  unfold jsToLower
  rw [List.map_map]
  exact List.map_congr_left fun c _ => charToLowerIdem c

/-- A diagnosis produced by `evaluate` was produced by one of the seven
rules. -/
theorem evaluateCases (now : Int) (data : SubscriptionData) (t : JsStr) (d : Diagnosis)
    (h : evaluate now data t = some d) :
    ruleProvisioningStuck now data t = some d ∨ ruleBillingHold now data t = some d ∨
    ruleNormalDelay now data t = some d ∨ ruleDeviceConfig now data t = some d ∨
    rulePaymentOverdue now data t = some d ∨ ruleSubscriptionEnded now data t = some d ∨
    ruleActivationFailed now data t = some d := by
  simp only [evaluate, rules, List.findSome?] at h
  rcases h1 : ruleProvisioningStuck now data t with _ | d1 <;> rw [h1] at h
  · rcases h2 : ruleBillingHold now data t with _ | d2 <;> rw [h2] at h
    · rcases h3 : ruleNormalDelay now data t with _ | d3 <;> rw [h3] at h
      · rcases h4 : ruleDeviceConfig now data t with _ | d4 <;> rw [h4] at h
        · rcases h5 : rulePaymentOverdue now data t with _ | d5 <;> rw [h5] at h
          · rcases h6 : ruleSubscriptionEnded now data t with _ | d6 <;> rw [h6] at h
            · rcases h7 : ruleActivationFailed now data t with _ | d7 <;> rw [h7] at h
              · simp at h
              · simp at h; tauto
            · simp at h; tauto
          · simp at h; tauto
        · simp at h; tauto
      · simp at h; tauto
    · simp at h; tauto
  · simp at h; tauto

/-- Inversion for rule 1: a match is the provisioning-stuck object built from
the record. -/
theorem ruleProvisioningStuckEq (now : Int) (data : SubscriptionData) (t : JsStr)
    (d : Diagnosis) (h : ruleProvisioningStuck now data t = some d) :
    d = provisioningStuckDiag (data.sim.getD emptySim).id (minutesSinceActivation now data) := by
  unfold ruleProvisioningStuck at h
  dsimp only at h
  split at h
  · cases h; rfl
  · cases h

/-- Inversion for rule 2. -/
theorem ruleBillingHoldEq (now : Int) (data : SubscriptionData) (t : JsStr)
    (d : Diagnosis) (h : ruleBillingHold now data t = some d) : d = billingHoldDiag := by
  unfold ruleBillingHold at h
  dsimp only at h
  split at h
  · cases h; rfl
  · cases h

/-- Inversion for rule 3. -/
theorem ruleNormalDelayEq (now : Int) (data : SubscriptionData) (t : JsStr)
    (d : Diagnosis) (h : ruleNormalDelay now data t = some d) :
    d = normalDelayDiag (minutesSinceActivation now data) := by
  unfold ruleNormalDelay at h
  dsimp only at h
  split at h
  · cases h; rfl
  · cases h

/-- Inversion for rule 4. -/
theorem ruleDeviceConfigEq (now : Int) (data : SubscriptionData) (t : JsStr)
    (d : Diagnosis) (h : ruleDeviceConfig now data t = some d) : d = deviceConfigDiag := by
  unfold ruleDeviceConfig at h
  dsimp only at h
  split at h
  · cases h; rfl
  · cases h

/-- Inversion for rule 5. -/
theorem rulePaymentOverdueEq (now : Int) (data : SubscriptionData) (t : JsStr)
    (d : Diagnosis) (h : rulePaymentOverdue now data t = some d) : d = paymentOverdueDiag := by
  unfold rulePaymentOverdue at h
  split at h
  · cases h; rfl
  · cases h

/-- Inversion for rule 6. -/
theorem ruleSubscriptionEndedEq (now : Int) (data : SubscriptionData) (t : JsStr)
    (d : Diagnosis) (h : ruleSubscriptionEnded now data t = some d) : d = subscriptionEndedDiag := by
  unfold ruleSubscriptionEnded at h
  split at h
  · cases h; rfl
  · cases h

/-- Inversion for rule 7. -/
theorem ruleActivationFailedEq (now : Int) (data : SubscriptionData) (t : JsStr)
    (d : Diagnosis) (h : ruleActivationFailed now data t = some d) : d = activationFailedDiag := by
  unfold ruleActivationFailed at h
  dsimp only at h
  split at h
  · cases h; rfl
  · cases h

/-- With no nested sim object, the four rules that inspect the SIM status all
abstain (the substituted empty object has no status). -/
theorem simRulesAbstainOfNoSim (now : Int) (data : SubscriptionData) (t : JsStr)
    (hsim : data.sim = none) :
    ruleProvisioningStuck now data t = none ∧ ruleBillingHold now data t = none ∧
    ruleNormalDelay now data t = none ∧ ruleDeviceConfig now data t = none := by
  refine ⟨?_, ?_, ?_, ?_⟩ <;>
    simp [ruleProvisioningStuck, ruleBillingHold, ruleNormalDelay, ruleDeviceConfig,
      hsim, emptySim]

/-- C1 counterexample: on a record with SIM status inactive, subscription
status pending and an activation start exactly 15 whole minutes before the
current time, `evaluate` returns no match at all — not the normal-delay
diagnosis the claim requires (rule 3 demands strictly fewer than 15 minutes,
rule 1 strictly more). -/
theorem c1_boundary_counterexample :
    minutesSinceActivation 900000 sampleStuck = 15 ∧
    evaluate 900000 sampleStuck [] = none := by
  decide

/-- C1 (amended): for every record with SIM status inactive, subscription
status pending, elapsed minutes exactly 15, and user text not mentioning
"activation failed", `evaluate` returns NoMatch — neither normal_delay
(strictly fewer than 15) nor provisioning_stuck (strictly more than 15)
fires, and no other rule applies. -/
theorem c1_boundary_amended (now : Int) (data : SubscriptionData) (t : JsStr)
    (hsim : (data.sim.getD emptySim).status = some ("inactive"))
    (hstat : data.status = some ("pending"))
    (hmin : minutesSinceActivation now data = 15)
    (ht : containsSub (jsToLower t) ("activation failed".toList) = false) :
    evaluate now data t = none := by
  have r1 : ruleProvisioningStuck now data t = none := by
    simp [ruleProvisioningStuck, hmin]
  have r2 : ruleBillingHold now data t = none := by
    simp [ruleBillingHold, hstat]
  have r3 : ruleNormalDelay now data t = none := by
    simp [ruleNormalDelay, hmin]
  have r4 : ruleDeviceConfig now data t = none := by
    simp [ruleDeviceConfig, hsim]
  have r5 : rulePaymentOverdue now data t = none := by
    simp [rulePaymentOverdue, hstat]
  have r6 : ruleSubscriptionEnded now data t = none := by
    simp [ruleSubscriptionEnded, hstat]
  have r7 : ruleActivationFailed now data t = none := by
    simpa [ruleActivationFailed] using ht
  simp [evaluate, rules, List.findSome?, r1, r2, r3, r4, r5, r6, r7]

/-- C1 witness: the amended boundary statement applied to a concrete record
created exactly 15 minutes before the current time. -/
theorem c1_boundary_amended_witness :
    evaluate 960000
      { status := some ("pending"), createdAt := some 60000,
        sim := some { id := none, status := some ("inactive"), createdAt := none } }
      ("my esim is stuck".toList) = none :=
  c1_boundary_amended 960000 _ _ (by decide) (by decide) (by decide) (by decide)

/-- C2: `evaluate` consults the rules in the fixed listed order and returns
the first rule's diagnosis once every earlier rule abstained, regardless of
whether any later rule would also match — later rules are never consulted. -/
theorem c2_first_match_wins (now : Int) (data : SubscriptionData) (t : JsStr)
    (k : Nat) (d : Diagnosis) (hk : k < rules.length)
    (hprev : ∀ j, j < k → ruleAt j now data t = none)
    (hmatch : ruleAt k now data t = some d) :
    evaluate now data t = some d := by
  have hlen : rules.length = 7 := rfl
  rw [hlen] at hk
  interval_cases k
  · have e0 : ruleProvisioningStuck now data t = some d := hmatch
    simp [evaluate, rules, List.findSome?, e0]
  · have e0 : ruleProvisioningStuck now data t = none := hprev 0 (by omega)
    have e1 : ruleBillingHold now data t = some d := hmatch
    simp [evaluate, rules, List.findSome?, e0, e1]
  · have e0 : ruleProvisioningStuck now data t = none := hprev 0 (by omega)
    have e1 : ruleBillingHold now data t = none := hprev 1 (by omega)
    have e2 : ruleNormalDelay now data t = some d := hmatch
    simp [evaluate, rules, List.findSome?, e0, e1, e2]
  · have e0 : ruleProvisioningStuck now data t = none := hprev 0 (by omega)
    have e1 : ruleBillingHold now data t = none := hprev 1 (by omega)
    have e2 : ruleNormalDelay now data t = none := hprev 2 (by omega)
    have e3 : ruleDeviceConfig now data t = some d := hmatch
    simp [evaluate, rules, List.findSome?, e0, e1, e2, e3]
  · have e0 : ruleProvisioningStuck now data t = none := hprev 0 (by omega)
    have e1 : ruleBillingHold now data t = none := hprev 1 (by omega)
    have e2 : ruleNormalDelay now data t = none := hprev 2 (by omega)
    have e3 : ruleDeviceConfig now data t = none := hprev 3 (by omega)
    have e4 : rulePaymentOverdue now data t = some d := hmatch
    simp [evaluate, rules, List.findSome?, e0, e1, e2, e3, e4]
  · have e0 : ruleProvisioningStuck now data t = none := hprev 0 (by omega)
    have e1 : ruleBillingHold now data t = none := hprev 1 (by omega)
    have e2 : ruleNormalDelay now data t = none := hprev 2 (by omega)
    have e3 : ruleDeviceConfig now data t = none := hprev 3 (by omega)
    have e4 : rulePaymentOverdue now data t = none := hprev 4 (by omega)
    have e5 : ruleSubscriptionEnded now data t = some d := hmatch
    simp [evaluate, rules, List.findSome?, e0, e1, e2, e3, e4, e5]
  · have e0 : ruleProvisioningStuck now data t = none := hprev 0 (by omega)
    have e1 : ruleBillingHold now data t = none := hprev 1 (by omega)
    have e2 : ruleNormalDelay now data t = none := hprev 2 (by omega)
    have e3 : ruleDeviceConfig now data t = none := hprev 3 (by omega)
    have e4 : rulePaymentOverdue now data t = none := hprev 4 (by omega)
    have e5 : ruleSubscriptionEnded now data t = none := hprev 5 (by omega)
    have e6 : ruleActivationFailed now data t = some d := hmatch
    simp [evaluate, rules, List.findSome?, e0, e1, e2, e3, e4, e5, e6]

/-- C2 witness: the first-match statement applied at position 4
(payment_overdue) on a restricted record on which rules 1-4 abstain. -/
theorem c2_first_match_wins_witness :
    evaluate 0 sampleRestricted [] = some paymentOverdueDiag :=
  c2_first_match_wins 0 sampleRestricted [] 4 paymentOverdueDiag (by decide)
    (by decide) (by decide)

/-- C3: when the LLM succeeded, the orchestrator returns its diagnosis with
the action coerced to escalate whenever confidence is below 80, and with the
proposed action preserved whenever confidence is at least 80; moreover the
handler reaches exactly this branch when no rule matched. -/
theorem c3_confidence_gate (data : SubscriptionData) (llmResult : LlmResult)
    (nowISO : String) (providerCall : Except String String)
    (hs : llmResult.success = true) :
    (llmResult.diagnosis.confidence < 80 →
      (llmBranch data llmResult nowISO providerCall).actionField = some ("escalate")) ∧
    (80 ≤ llmResult.diagnosis.confidence →
      (llmBranch data llmResult nowISO providerCall).actionField =
        some llmResult.diagnosis.recommendedAction) ∧
    (∀ now subscriptionId issue,
      jsTruthyStr subscriptionId = true → jsTruthyJsStr (some issue) = true →
      evaluate now data issue = none →
      diagnoseHandler now nowISO subscriptionId (some issue) (.ok data) llmResult providerCall =
        llmBranch data llmResult nowISO providerCall) := by
  refine ⟨?_, ?_, ?_⟩
  · intro hc
    have hnot : ¬ (80 ≤ llmResult.diagnosis.confidence) := by omega
    simp [llmBranch, hs, HandlerResponse.actionField, hnot]
  · intro hc
    simp [llmBranch, hs, HandlerResponse.actionField, hc]
  · intro now subscriptionId issue hsid hissue heval
    simp [diagnoseHandler, hsid, hissue, heval]

/-- C3 witness: a reasoner diagnosis with confidence 79 comes back with the
escalate action, one with confidence 80 keeps its proposed action. -/
theorem c3_confidence_gate_witness :
    (llmBranch sampleEmpty
      { success := true, error := none,
        diagnosis := { diagnosisText := "sync issue", recommendedAction := "reprovision",
                       confidence := 79, reasoning := "r", userMessage := none } }
      "T" (.error "e")).actionField = some ("escalate") ∧
    (llmBranch sampleEmpty
      { success := true, error := none,
        diagnosis := { diagnosisText := "sync issue", recommendedAction := "wait",
                       confidence := 80, reasoning := "r", userMessage := none } }
      "T" (.error "e")).actionField = some ("wait") :=
  ⟨(c3_confidence_gate sampleEmpty _ "T" (.error "e") rfl).1 (by decide),
   (c3_confidence_gate sampleEmpty _ "T" (.error "e") rfl).2.1 (by decide)⟩

/-- C4 counterexample: with an activation-start timestamp one minute in the
future of the current time, the elapsed-minutes computation returns -1, so it
is not non-negative for every record and every current time. -/
theorem c4_negative_minutes_counterexample :
    minutesSinceActivation 0
      { status := none, createdAt := some 60000, sim := none } = -1 := by
  decide

/-- C4 (amended): the elapsed-minutes computation returns exactly 0 whenever
both the subscription's and the SIM's createdAt are absent, and it is
non-negative whenever the activation-start timestamp it picks does not lie in
the future; a future timestamp makes it negative. -/
theorem c4_elapsed_minutes_amended (now : Int) (data : SubscriptionData) :
    (data.createdAt = none → (data.sim.bind fun s => s.createdAt) = none →
      minutesSinceActivation now data = 0) ∧
    (∀ c, activationStart data = some c → c ≤ now →
      0 ≤ minutesSinceActivation now data) := by
  constructor
  · intro h1 h2
    simp [minutesSinceActivation, activationStart, h1, h2]
  · intro c hc hle
    simp only [minutesSinceActivation, hc]
    exact Int.fdiv_nonneg (by omega) (by norm_num)

/-- C4 witness: the amended statement applied to the empty record (elapsed 0)
and to a record created two minutes before the current time (non-negative). -/
theorem c4_elapsed_minutes_amended_witness :
    minutesSinceActivation 5 sampleEmpty = 0 ∧
    0 ≤ minutesSinceActivation 120000
      { status := none, createdAt := some 0, sim := none } :=
  ⟨(c4_elapsed_minutes_amended 5 sampleEmpty).1 rfl rfl,
   (c4_elapsed_minutes_amended 120000 _).2 0 rfl (by decide)⟩

/-- C5 counterexample: rule 7 (activation_failed) matches with action
reprovision, yet the orchestrator performs no reprovision call — the rule
carries no simId, so the execution guard fails and `actionResult` stays null
even with the provider available. -/
theorem c5_rule7_no_reprovision_counterexample :
    (evaluate 0 sampleActiveActive ("activation failed".toList)).map
      (fun d => (d.ruleName, d.action)) = some (("activation_failed"), ("reprovision")) ∧
    (diagnoseHandler 0 "T" (some ("sub_1")) (some ("activation failed".toList))
      (.ok sampleActiveActive) llmUnused (.ok "provider ready")).actionResultField = none := by
  decide

/-- C5 (amended): every rule-engine match has confidence at least 85 (hence
at least 80), but the orchestrator executes an action exactly when the
matched rule's action is reprovision and it carries a truthy simId; rule 7's
matches have action reprovision with no simId, so they never trigger the
call. -/
theorem c5_threshold_amended :
    (∀ now data t d, evaluate now data t = some d →
      85 ≤ d.confidence ∧ 80 ≤ d.confidence) ∧
    (∀ r nowISO providerCall,
      (ruleBranch r nowISO providerCall).actionResultField ≠ none ↔
        (r.action = "reprovision" ∧ jsTruthyStr r.simId = true)) ∧
    (∀ now data t d, ruleActivationFailed now data t = some d →
      d.action = "reprovision" ∧ d.simId = none) := by
  refine ⟨?_, ?_, ?_⟩
  · intro now data t d h
    rcases evaluateCases now data t d h with h1 | h1 | h1 | h1 | h1 | h1 | h1
    · rw [ruleProvisioningStuckEq now data t d h1]
      exact ⟨by norm_num [provisioningStuckDiag], by norm_num [provisioningStuckDiag]⟩
    · rw [ruleBillingHoldEq now data t d h1]
      exact ⟨by norm_num [billingHoldDiag], by norm_num [billingHoldDiag]⟩
    · rw [ruleNormalDelayEq now data t d h1]
      exact ⟨by norm_num [normalDelayDiag], by norm_num [normalDelayDiag]⟩
    · rw [ruleDeviceConfigEq now data t d h1]
      exact ⟨by norm_num [deviceConfigDiag], by norm_num [deviceConfigDiag]⟩
    · rw [rulePaymentOverdueEq now data t d h1]
      exact ⟨by norm_num [paymentOverdueDiag], by norm_num [paymentOverdueDiag]⟩
    · rw [ruleSubscriptionEndedEq now data t d h1]
      exact ⟨by norm_num [subscriptionEndedDiag], by norm_num [subscriptionEndedDiag]⟩
    · rw [ruleActivationFailedEq now data t d h1]
      exact ⟨by norm_num [activationFailedDiag], by norm_num [activationFailedDiag]⟩
  · intro r nowISO providerCall
    by_cases hcond : (r.action == "reprovision" && jsTruthyStr r.simId) = true
    · have hp : r.action = "reprovision" ∧ jsTruthyStr r.simId = true := by
        simpa [Bool.and_eq_true, beq_iff_eq] using hcond
      simp [ruleBranch, hcond, HandlerResponse.actionResultField, hp]
    · have hp : ¬ (r.action = "reprovision" ∧ jsTruthyStr r.simId = true) := by
        simpa [Bool.and_eq_true, beq_iff_eq] using hcond
      simp [ruleBranch, hcond, HandlerResponse.actionResultField, hp]
  · intro now data t d h
    rw [ruleActivationFailedEq now data t d h]
    exact ⟨rfl, rfl⟩

/-- C5 witness: the amended statement applied to the concrete
activation-failed match of the counterexample input. -/
theorem c5_threshold_amended_witness :
    (85 ≤ activationFailedDiag.confidence ∧ 80 ≤ activationFailedDiag.confidence) ∧
    (activationFailedDiag.action = "reprovision" ∧ activationFailedDiag.simId = none) :=
  ⟨c5_threshold_amended.1 0 sampleActiveActive ("activation failed".toList)
      activationFailedDiag (by decide),
   c5_threshold_amended.2.2 0 sampleActiveActive ("activation failed".toList)
      activationFailedDiag (by decide)⟩

/-- C6: on a record with subscription status active and SIM status active,
user text containing none of the device-configuration keywords and not
containing "activation failed" (case-insensitively) yields NoMatch, so the
caller falls back to the reasoner. -/
theorem c6_no_match_fallback (now : Int) (data : SubscriptionData) (t : JsStr)
    (hstat : data.status = some ("active"))
    (hsim : (data.sim.getD emptySim).status = some ("active"))
    (hkw : ∀ kw ∈ noServiceKeywords, containsSub (jsToLower t) kw = false)
    (haf : containsSub (jsToLower t) ("activation failed".toList) = false) :
    evaluate now data t = none := by
  have r1 : ruleProvisioningStuck now data t = none := by
    simp [ruleProvisioningStuck, hsim]
  have r2 : ruleBillingHold now data t = none := by
    simp [ruleBillingHold, hsim]
  have r3 : ruleNormalDelay now data t = none := by
    simp [ruleNormalDelay, hsim]
  have hany : (noServiceKeywords.any fun kw => containsSub (jsToLower t) kw) = false := by
    rw [List.any_eq_false]
    intro kw hkwmem
    simp [hkw kw hkwmem]
  have r4 : ruleDeviceConfig now data t = none := by
    simp [ruleDeviceConfig, hany]
  have r5 : rulePaymentOverdue now data t = none := by
    simp [rulePaymentOverdue, hstat]
  have r6 : ruleSubscriptionEnded now data t = none := by
    simp [ruleSubscriptionEnded, hstat]
  have r7 : ruleActivationFailed now data t = none := by
    simpa [ruleActivationFailed] using haf
  simp [evaluate, rules, List.findSome?, r1, r2, r3, r4, r5, r6, r7]

/-- C6 witness: the no-match statement applied to an active/active record and
a keyword-free issue text. -/
theorem c6_no_match_fallback_witness :
    evaluate 0 sampleActiveActive ("it is weird".toList) = none :=
  c6_no_match_fallback 0 sampleActiveActive _ (by decide) (by decide) (by decide) (by decide)

/-- C7: keyword matching is case-insensitive — evaluating on the lower-cased
text gives the same result as on the original text for every record; in
particular "I have NO SERVICE at all" matches device_config (action
route_to_settings_guide, confidence 85) on an active/active record. -/
theorem c7_case_insensitive_keywords :
    (∀ now data t, evaluate now data (jsToLower t) = evaluate now data t) ∧
    (evaluate 0 sampleActiveActive ("I have NO SERVICE at all".toList)).map
      (fun d => (d.ruleName, d.action, d.confidence)) =
      some (("device_config"), ("route_to_settings_guide"), (85 : Int)) := by
  constructor
  · intro now data t
    have h1 : ruleProvisioningStuck now data (jsToLower t) =
        ruleProvisioningStuck now data t := rfl
    have h2 : ruleBillingHold now data (jsToLower t) = ruleBillingHold now data t := rfl
    have h3 : ruleNormalDelay now data (jsToLower t) = ruleNormalDelay now data t := rfl
    have h4 : ruleDeviceConfig now data (jsToLower t) = ruleDeviceConfig now data t := by
      unfold ruleDeviceConfig
      simp only [jsToLowerIdem]
    have h5 : rulePaymentOverdue now data (jsToLower t) = rulePaymentOverdue now data t := rfl
    have h6 : ruleSubscriptionEnded now data (jsToLower t) =
        ruleSubscriptionEnded now data t := rfl
    have h7 : ruleActivationFailed now data (jsToLower t) =
        ruleActivationFailed now data t := by
      unfold ruleActivationFailed
      simp only [jsToLowerIdem]
    simp only [evaluate, rules, List.findSome?, h1, h2, h3, h4, h5, h6, h7]
  · decide

/-- C8: a failing outbound reprovision call never propagates — the executor
returns success with the synthesized payload and the mocked marker, and the
diagnosis response is still served as a successful rule-engine response. -/
theorem c8_reprovision_failure_masked :
    (∀ simId nowISO err, reprovisionSIM simId nowISO (.error err) =
      { success := true
        data := .mock simId ("reprovision_triggered")
          ("SIM reprovisioning initiated (mocked for prototype)") nowISO
        mocked := true }) ∧
    (diagnoseHandler 1200000 "T" (some ("sub_1")) (some ("my esim is stuck".toList))
        (.ok sampleStuck) llmUnused (.error "ENOTFOUND")).methodField =
      some ("rule_engine") ∧
    (diagnoseHandler 1200000 "T" (some ("sub_1")) (some ("my esim is stuck".toList))
        (.ok sampleStuck) llmUnused (.error "ENOTFOUND")).actionResultField =
      some { success := true
             data := .mock ("sim_1") ("reprovision_triggered")
               ("SIM reprovisioning initiated (mocked for prototype)") ("T")
             mocked := true } := by
  refine ⟨fun simId nowISO err => rfl, by decide, by decide⟩

/-- C9: every diagnosis `evaluate` returns has a confidence between 0 and 100
and an action drawn from the enumerated action set. -/
theorem c9_diagnosis_invariants (now : Int) (data : SubscriptionData) (t : JsStr)
    (d : Diagnosis) (h : evaluate now data t = some d) :
    0 ≤ d.confidence ∧ d.confidence ≤ 100 ∧
    d.action ∈ (["reprovision", "route_to_payment", "route_to_payment_restoration",
      "route_to_settings_guide", "wait", "inform_only", "escalate"] : List String) := by
  rcases evaluateCases now data t d h with h1 | h1 | h1 | h1 | h1 | h1 | h1
  · rw [ruleProvisioningStuckEq now data t d h1]
    refine ⟨by norm_num [provisioningStuckDiag], by norm_num [provisioningStuckDiag], ?_⟩
    simp [provisioningStuckDiag]
  · rw [ruleBillingHoldEq now data t d h1]
    refine ⟨by norm_num [billingHoldDiag], by norm_num [billingHoldDiag], ?_⟩
    simp [billingHoldDiag]
  · rw [ruleNormalDelayEq now data t d h1]
    refine ⟨by norm_num [normalDelayDiag], by norm_num [normalDelayDiag], ?_⟩
    simp [normalDelayDiag]
  · rw [ruleDeviceConfigEq now data t d h1]
    refine ⟨by norm_num [deviceConfigDiag], by norm_num [deviceConfigDiag], ?_⟩
    simp [deviceConfigDiag]
  · rw [rulePaymentOverdueEq now data t d h1]
    refine ⟨by norm_num [paymentOverdueDiag], by norm_num [paymentOverdueDiag], ?_⟩
    simp [paymentOverdueDiag]
  · rw [ruleSubscriptionEndedEq now data t d h1]
    refine ⟨by norm_num [subscriptionEndedDiag], by norm_num [subscriptionEndedDiag], ?_⟩
    simp [subscriptionEndedDiag]
  · rw [ruleActivationFailedEq now data t d h1]
    refine ⟨by norm_num [activationFailedDiag], by norm_num [activationFailedDiag], ?_⟩
    simp [activationFailedDiag]

/-- C9 witness: the invariant statement applied to the billing-hold match of
an initiated record with an inactive SIM. -/
theorem c9_diagnosis_invariants_witness :
    0 ≤ billingHoldDiag.confidence ∧ billingHoldDiag.confidence ≤ 100 ∧
    billingHoldDiag.action ∈ (["reprovision", "route_to_payment",
      "route_to_payment_restoration", "route_to_settings_guide", "wait",
      "inform_only", "escalate"] : List String) :=
  c9_diagnosis_invariants 0
    { status := some ("initiated"), createdAt := none,
      sim := some { id := none, status := some ("inactive"), createdAt := none } }
    [] billingHoldDiag (by decide)

/-- C10: a record with no nested sim object evaluates without error — the
four SIM-inspecting rules abstain on the substituted empty object, and the
record can still match payment_overdue, subscription_ended, or the
keyword-only activation_failed rule. -/
theorem c10_missing_sim_safe (now : Int) (data : SubscriptionData) (t : JsStr)
    (hsim : data.sim = none) :
    (ruleProvisioningStuck now data t = none ∧ ruleBillingHold now data t = none ∧
     ruleNormalDelay now data t = none ∧ ruleDeviceConfig now data t = none) ∧
    (data.status = some ("restricted") → evaluate now data t = some paymentOverdueDiag) ∧
    (data.status = some ("ended") → evaluate now data t = some subscriptionEndedDiag) ∧
    (containsSub (jsToLower t) ("activation failed".toList) = true →
      data.status ≠ some ("restricted") → data.status ≠ some ("ended") →
      evaluate now data t = some activationFailedDiag) := by
  obtain ⟨r1, r2, r3, r4⟩ := simRulesAbstainOfNoSim now data t hsim
  refine ⟨⟨r1, r2, r3, r4⟩, ?_, ?_, ?_⟩
  · intro hres
    have r5 : rulePaymentOverdue now data t = some paymentOverdueDiag := by
      simp [rulePaymentOverdue, hres]
    simp [evaluate, rules, List.findSome?, r1, r2, r3, r4, r5]
  · intro hend
    have r5 : rulePaymentOverdue now data t = none := by
      simp [rulePaymentOverdue, hend]
    have r6 : ruleSubscriptionEnded now data t = some subscriptionEndedDiag := by
      simp [ruleSubscriptionEnded, hend]
    simp [evaluate, rules, List.findSome?, r1, r2, r3, r4, r5, r6]
  · intro haf hres hend
    have r5 : rulePaymentOverdue now data t = none := by
      simp [rulePaymentOverdue, hres]
    have r6 : ruleSubscriptionEnded now data t = none := by
      simp [ruleSubscriptionEnded, hend]
    have r7 : ruleActivationFailed now data t = some activationFailedDiag := by
      simpa [ruleActivationFailed] using haf
    simp [evaluate, rules, List.findSome?, r1, r2, r3, r4, r5, r6, r7]

/-- C10 witness: the missing-sim statement applied to a restricted record
with no sim object. -/
theorem c10_missing_sim_safe_witness :
    evaluate 7 { status := some ("restricted"), createdAt := some 3, sim := none }
      ("help".toList) = some paymentOverdueDiag :=
  (c10_missing_sim_safe 7 _ _ rfl).2.1 rfl
